import Mathlib

/-!
# Verification of the satkit orbit-propagation core

Shallow embedding, in Lean 4, of the parts of the satkit repository that the
specification describes:

* `src/ode/adaptive_solvers/rkf45.rs` — the concrete RKF45 Butcher tableau
  (`RKF45.A`, `RKF45.B`, `RKF45.BSTAR`, `RKF45.BERR`, `RKF45.C`, `RKF45.ORDER`,
  `RKF45.FSAL`).  The Rust constants are `f64` values written as exact rational
  expressions; they are embedded here as the corresponding exact rationals, so
  tableau identities that hold up to floating-point rounding hold exactly.
* `src/orbitprop/satstate.rs` — the `SatState` value object and its
  `propagate`, `set_gcrf_pos_uncertainty` and `set_lvlh_pos_uncertainty`
  methods, with state entries embedded as rationals.
* `src/pybindings/pypropresult.rs` — the `PyPropResult::interp` dispatch over
  the 1-column and 7-column propagation results.

The generic adaptive integration engine (`orbitprop::propagate`, the
`PropagationResult` type and its `interp` method) is used by the sources above
but its implementation is not among the sources; where a claim depends on it,
it is modelled from the specification, with the parts the spec leaves open
(the non-zero-span integration core, the dense-output evaluator) abstracted
as explicit function parameters.
-/

open scoped Matrix

/-! ## The RKF45 Butcher tableau (src/ode/adaptive_solvers/rkf45.rs) -/

/-- Stage count of the RKF45 method: the first const-generic parameter `6` of
`impl RKAdaptive<6, 1> for RKF45`. -/
def RKF45.S : ℕ := 6

/-- The stage-coupling matrix `RKF45::A`, embedded as the exact rationals of
the source expressions. -/
def RKF45.A : Fin 6 → Fin 6 → ℚ :=
  ![![0, 0, 0, 0, 0, 0],
    ![1/4, 0, 0, 0, 0, 0],
    ![3/32, 9/32, 0, 0, 0, 0],
    ![1932/2197, -7200/2197, 7296/2197, 0, 0, 0],
    ![439/216, -8, 3680/513, -845/4104, 0, 0],
    ![-8/27, 2, -3544/2565, 1859/4104, -11/40, 0]]

/-- The primary weight vector `RKF45::B`. -/
def RKF45.B : Fin 6 → ℚ :=
  ![16/135, 0, 6656/12825, 28561/56430, -9/50, 2/55]

/-- The local constant `BSTAR` inside the initializer of `RKF45::BERR` in the
source: the weight vector the error weights are computed against. -/
def RKF45.BSTAR : Fin 6 → ℚ :=
  ![25/216, 0, 1408/2565, 2197/4104, -1/5, 0]

/-- `RKF45::BERR`: the source computes `berr[ix] = BSTAR[ix] - B[ix]` in a
`const` loop over `ix = 0..6`. -/
def RKF45.BERR : Fin 6 → ℚ := fun i => RKF45.BSTAR i - RKF45.B i

/-- The stage time-fraction vector `RKF45::C`. -/
def RKF45.C : Fin 6 → ℚ := ![0, 1/4, 3/8, 12/13, 1, 1/2]

/-- `RKF45::ORDER`. -/
def RKF45.ORDER : ℕ := 4

/-- `RKF45::FSAL`. -/
def RKF45.FSAL : Bool := false

/-- The interpolation matrix `RKF45::BI` (width 1). -/
def RKF45.BI : Fin 6 → Fin 1 → ℚ :=
  ![![16/135], ![0], ![6656/12825], ![28561/56430], ![-9/50], ![2/55]]

/-- Evaluation of a six-entry vector literal at the index five, which the
Mathlib `cons_val` simp lemmas stop short of. -/
theorem vecCons_val_five (x : ℚ) (u : Fin 5 → ℚ) : Matrix.vecCons x u 5 = u 4 := rfl

/-! ## Runge–Kutta order conditions

To settle which of the two weight vectors of the tableau is the 4th-order and
which the 5th-order solution, we use the classical Butcher rooted-tree order
conditions for the fixed coupling matrix `RKF45.A` and node vector `RKF45.C`.
A weight vector gives a Runge–Kutta method of order `p` on smooth problems
exactly when it satisfies all conditions for trees with at most `p` nodes. -/

/-- Weighted sum `∑ i, b i * v i` over the six stages. -/
def stageDot (b v : Fin 6 → ℚ) : ℚ := ∑ i, b i * v i

/-- Matrix-vector action of the coupling matrix: `(A·v) i = ∑ j, A i j * v j`. -/
def stageA (v : Fin 6 → ℚ) : Fin 6 → ℚ := fun i => ∑ j, RKF45.A i j * v j

/-- Pointwise product of stage vectors. -/
def stageMul (u v : Fin 6 → ℚ) : Fin 6 → ℚ := fun i => u i * v i

/-- Powers of the node vector `C`. -/
def stageCpow (k : ℕ) : Fin 6 → ℚ := fun i => (RKF45.C i) ^ k

/-- The Butcher condition for a weight vector `b` to give a method of order
(at least) 1 with the tableau coefficients `A` and `C`. -/
def ordConds1 (b : Fin 6 → ℚ) : Prop :=
  stageDot b (stageCpow 0) = 1

/-- Order conditions through order 2. -/
def ordConds2 (b : Fin 6 → ℚ) : Prop :=
  ordConds1 b ∧ stageDot b (stageCpow 1) = 1/2

/-- Order conditions through order 3. -/
def ordConds3 (b : Fin 6 → ℚ) : Prop :=
  ordConds2 b ∧
  stageDot b (stageCpow 2) = 1/3 ∧
  stageDot b (stageA (stageCpow 1)) = 1/6

/-- Order conditions through order 4. -/
def ordConds4 (b : Fin 6 → ℚ) : Prop :=
  ordConds3 b ∧
  stageDot b (stageCpow 3) = 1/4 ∧
  stageDot b (stageMul (stageCpow 1) (stageA (stageCpow 1))) = 1/8 ∧
  stageDot b (stageA (stageCpow 2)) = 1/12 ∧
  stageDot b (stageA (stageA (stageCpow 1))) = 1/24

/-- Order conditions through order 5: the order-4 conditions together with the
nine conditions of the rooted trees with five nodes. -/
def ordConds5 (b : Fin 6 → ℚ) : Prop :=
  ordConds4 b ∧
  stageDot b (stageCpow 4) = 1/5 ∧
  stageDot b (stageMul (stageCpow 2) (stageA (stageCpow 1))) = 1/10 ∧
  stageDot b (stageMul (stageA (stageCpow 1)) (stageA (stageCpow 1))) = 1/20 ∧
  stageDot b (stageMul (stageCpow 1) (stageA (stageCpow 2))) = 1/15 ∧
  stageDot b (stageMul (stageCpow 1) (stageA (stageA (stageCpow 1)))) = 1/30 ∧
  stageDot b (stageA (stageCpow 3)) = 1/20 ∧
  stageDot b (stageA (stageMul (stageCpow 1) (stageA (stageCpow 1)))) = 1/40 ∧
  stageDot b (stageA (stageA (stageCpow 2))) = 1/60 ∧
  stageDot b (stageA (stageA (stageA (stageCpow 1)))) = 1/120

/-- Claim C4: the RKF45 coupling matrix is strictly lower triangular
(`A i j = 0` whenever `j ≥ i`), the first stage time fraction is `C 0 = 0`,
and every row of `A` sums exactly to the corresponding entry of `C` (the
consistency identity holds exactly over the rationals, hence in particular up
to floating-point rounding). -/
theorem rkf45_tableau_invariants :
    (∀ i j : Fin 6, i ≤ j → RKF45.A i j = 0) ∧
    RKF45.C 0 = 0 ∧
    (∀ i : Fin 6, (∑ j, RKF45.A i j) = RKF45.C i) := by
  refine ⟨?_, ?_, ?_⟩
  · intro i j h
    fin_cases i <;> fin_cases j <;>
      simp_all [RKF45.A, vecCons_val_five, Matrix.vecHead, Matrix.vecTail, Function.comp]
  · norm_num [RKF45.C]
  · intro i
    fin_cases i <;>
      norm_num [RKF45.A, RKF45.C, Fin.sum_univ_succ, vecCons_val_five,
                Matrix.vecHead, Matrix.vecTail, Function.comp]

/-- Claim C4 witness: the triangularity part of the invariants theorem applied
at the concrete index pair (0, 5), with its hypothesis discharged there. -/
theorem rkf45_tableau_invariants_witness :
    ((0 : Fin 6) ≤ 5) ∧ RKF45.A 0 5 = 0 :=
  ⟨by decide, rkf45_tableau_invariants.1 0 5 (by decide)⟩

/-- Claim C2 counterexample: the embedded weight vector used by the code,
`B + BERR` (which equals the local constant `BSTAR`), is not the weight
vector of a 5th-order solution for this tableau: it fails the order-5
rooted-tree conditions.  So `BERR` cannot be (weights of the 5th-order
solution) minus `B`: any such weights satisfy the order-5 conditions, while
`B + BERR` does not. -/
theorem rkf45_berr_counterexample :
    stageDot (fun i => RKF45.B i + RKF45.BERR i) (stageCpow 4) = 1577/7904 ∧
    ¬ ordConds5 (fun i => RKF45.B i + RKF45.BERR i) := by
  constructor
  · norm_num [stageDot, stageCpow, RKF45.B, RKF45.BERR, RKF45.BSTAR, RKF45.C,
              Fin.sum_univ_succ, vecCons_val_five, Matrix.vecHead, Matrix.vecTail,
              Function.comp]
  · intro h
    have h1 := h.2.1
    norm_num [stageDot, stageCpow, RKF45.B, RKF45.BERR, RKF45.BSTAR, RKF45.C,
              Fin.sum_univ_succ, vecCons_val_five, Matrix.vecHead, Matrix.vecTail,
              Function.comp] at h1

/-- Claim C2 (amended): `BERR i = BSTAR i - B i` for every stage index, i.e.
`BERR` is (embedded weights) − (primary weights) with the primary weights
being the `B` vector of the tableau and the embedded weights being `BSTAR`;
however the order labels of the spec are swapped: `B` satisfies the Butcher
conditions through order 5 while the embedded vector `BSTAR` satisfies them
only through order 4 (it is the 4th-order solution, not the 5th-order one). -/
theorem rkf45_berr_amended :
    (∀ i, RKF45.BERR i = RKF45.BSTAR i - RKF45.B i) ∧
    (∀ i, RKF45.B i + RKF45.BERR i = RKF45.BSTAR i) ∧
    ordConds5 RKF45.B ∧
    ordConds4 RKF45.BSTAR ∧
    ¬ ordConds5 RKF45.BSTAR := by
  refine ⟨fun i => rfl, fun i => by simp [RKF45.BERR], ?_, ?_, ?_⟩
  · simp only [ordConds5, ordConds4, ordConds3, ordConds2, ordConds1]
    norm_num [stageDot, stageA, stageMul, stageCpow, RKF45.A, RKF45.B, RKF45.C,
              Fin.sum_univ_succ, vecCons_val_five, Matrix.vecHead, Matrix.vecTail,
              Function.comp]
  · simp only [ordConds4, ordConds3, ordConds2, ordConds1]
    norm_num [stageDot, stageA, stageMul, stageCpow, RKF45.A, RKF45.BSTAR, RKF45.C,
              Fin.sum_univ_succ, vecCons_val_five, Matrix.vecHead, Matrix.vecTail,
              Function.comp]
  · intro h
    have h1 := h.2.1
    norm_num [stageDot, stageCpow, RKF45.BSTAR, RKF45.C,
              Fin.sum_univ_succ, vecCons_val_five, Matrix.vecHead, Matrix.vecTail,
              Function.comp] at h1

/-- Claim C5 counterexample: the embedded weights `B + BERR` fail the first
order-5 condition: `∑ i, (B i + BERR i) * C i ^ 4` equals `1577/7904`, not
`1/5`, so they are not the weights of a 5th-order solution. -/
theorem rkf45_embedded_order_counterexample :
    stageDot (fun i => RKF45.B i + RKF45.BERR i) (stageCpow 4) = 1577/7904 ∧
    (1577/7904 : ℚ) ≠ 1/5 := by
  constructor
  · norm_num [stageDot, stageCpow, RKF45.B, RKF45.BERR, RKF45.BSTAR, RKF45.C,
              Fin.sum_univ_succ, vecCons_val_five, Matrix.vecHead, Matrix.vecTail,
              Function.comp]
  · norm_num

/-- Claim C5 (amended): the concrete tableau instance has stage count 6,
declares `ORDER = 4` and `FSAL = false`; however the primary weight vector
`B` holds the weights of the 5th-order solution (it satisfies the Butcher
conditions through order 5) while the embedded weights `B + BERR` hold those
of the 4th-order solution (they satisfy the conditions through order 4 but
fail an order-5 condition) — the order labels of the claim are swapped. -/
theorem rkf45_tableau_instance_amended :
    RKF45.S = 6 ∧ RKF45.ORDER = 4 ∧ RKF45.FSAL = false ∧
    ordConds5 RKF45.B ∧
    ordConds4 (fun i => RKF45.B i + RKF45.BERR i) ∧
    ¬ ordConds5 (fun i => RKF45.B i + RKF45.BERR i) := by
  refine ⟨rfl, rfl, rfl, ?_, ?_, ?_⟩
  · simp only [ordConds5, ordConds4, ordConds3, ordConds2, ordConds1]
    norm_num [stageDot, stageA, stageMul, stageCpow, RKF45.A, RKF45.B, RKF45.C,
              Fin.sum_univ_succ, vecCons_val_five, Matrix.vecHead, Matrix.vecTail,
              Function.comp]
  · simp only [ordConds4, ordConds3, ordConds2, ordConds1]
    norm_num [stageDot, stageA, stageMul, stageCpow, RKF45.A, RKF45.B, RKF45.BERR,
              RKF45.BSTAR, RKF45.C, Fin.sum_univ_succ, vecCons_val_five,
              Matrix.vecHead, Matrix.vecTail, Function.comp]
  · intro h
    have h1 := h.2.1
    norm_num [stageDot, stageCpow, RKF45.B, RKF45.BERR, RKF45.BSTAR, RKF45.C,
              Fin.sum_univ_succ, vecCons_val_five, Matrix.vecHead, Matrix.vecTail,
              Function.comp] at h1

/-! ## The integration engine interface

The adaptive integration engine itself (`orbitprop::propagate` and the
`PropagationResult` type) is consumed by `satstate.rs` and `pypropresult.rs`
but is not among the sources; the definitions in this section are modelled
from the specification.  Times are embedded as rationals (the spec treats the
time type as an opaque ordered type with differences in seconds), states as
6×n rational matrices (n = 1 for plain propagation, n = 7 for the augmented
state). -/

/-- Modelled from the spec: the propagation settings struct (spec §6), whose
recognized options are the tolerances, step bounds, step-count guard and the
dense-output switch.  `SatState::propagate` treats it as opaque
configuration. -/
structure PropSettings where
  abs_error : ℚ
  rel_error : ℚ
  initial_step : ℚ
  min_step : ℚ
  max_step : ℚ
  max_steps : ℕ
  enable_dense_output : Bool

/-- Modelled from the spec: the fatal propagation error kinds of spec §7. -/
inductive PropError
  | stepSizeUnderflow
  | maxStepsExceeded
  | nonFiniteState

/-- Modelled from the spec: the propagation result record (spec §3): start and
end time, final state (a 6×n block; the source accesses it as
`res.state[0]`), the evaluation and step counters, and the optionally
retained dense output.  The retained dense-output data is abstracted as the
evaluation function it induces on the covered span. -/
structure PropagationResult (n : ℕ) where
  time_start : ℚ
  time_end : ℚ
  state_end : Matrix (Fin 6) (Fin n) ℚ
  num_eval : ℕ
  accepted_steps : ℕ
  rejected_steps : ℕ
  odesol : Option (ℚ → Matrix (Fin 6) (Fin n) ℚ)

/-- The type of the integration core driving a non-zero-span propagation of a
6×n state block: initial state, initial time, target time and settings to a
result or a fatal error.  The claims hold for an arbitrary core, so it is a
parameter of the embedding. -/
def IntegCore (n : ℕ) : Type :=
  Matrix (Fin 6) (Fin n) ℚ → ℚ → ℚ → PropSettings → Except PropError (PropagationResult n)

/-- Modelled from the spec: the engine entry point `orbitprop::propagate`
(spec §4.3 and §6).  The adaptive-controller loop runs while
`|t - target| > 0`, so a zero-span call performs no steps and returns the
initial state unchanged with zero counters (spec §8, zero-span propagation);
a call with a nonzero span is delegated to the integration core. -/
def orbitprop.propagate (core : IntegCore n) (y0 : Matrix (Fin 6) (Fin n) ℚ)
    (t0 t1 : ℚ) (settings : PropSettings) : Except PropError (PropagationResult n) :=
  if t1 = t0 then
    Except.ok { time_start := t0, time_end := t1, state_end := y0,
                num_eval := 0, accepted_steps := 0, rejected_steps := 0,
                odesol := Option.none }
  else core y0 t0 t1 settings

/-! ## SatState (src/orbitprop/satstate.rs) -/

/-- The covariance alternative `StateCov` of satstate.rs: absent, or a 6×6
position/velocity covariance. -/
inductive StateCov
  | None
  | PVCov (cov : Matrix (Fin 6) (Fin 6) ℚ)

/-- The `SatState` struct of satstate.rs: time, position/velocity 6-vector,
optional covariance. -/
structure SatState where
  time : ℚ
  pv : Fin 6 → ℚ
  cov : StateCov

/-- A 6-vector as the 6×1 single-column state block handed to the engine in
the covariance-free branch of `SatState::propagate`. -/
def colVec (pv : Fin 6 → ℚ) : Matrix (Fin 6) (Fin 1) ℚ := fun i _ => pv i

/-- The 6×7 augmented initial state built in the covariance branch of
`SatState::propagate`: a zero matrix whose column 0 is overwritten with the
position/velocity vector and whose 6×6 block at (0,1) is overwritten with the
identity matrix. -/
def augmentedInit (pv : Fin 6 → ℚ) : Matrix (Fin 6) (Fin 7) ℚ :=
  fun i j => if (j : ℕ) = 0 then pv i else if (j : ℕ) = (i : ℕ) + 1 then 1 else 0

/-- The 6×6 view at (0,1) of a propagated 6×7 state block: the state
transition matrix `phi` that `SatState::propagate` extracts from columns 1–7
of the result. -/
def phiOf (m : Matrix (Fin 6) (Fin 7) ℚ) : Matrix (Fin 6) (Fin 6) ℚ :=
  fun i j => m i j.succ

/-- `SatState::propagate` (satstate.rs lines 115–161).  On `StateCov::None`
it propagates the plain 6-vector (a single-column block) and returns a state
with covariance again absent; on `StateCov::PVCov` it propagates the 6×7
augmented state, reads the transition matrix `phi` back from columns 1–7 of
the result and returns the covariance `phi * cov * phiᵀ`.  The engine cores
are explicit parameters; the settings parameter stands for the resolved
settings (the source substitutes `PropSettings::default()` for `None`). -/
def SatState.propagate (core1 : IntegCore 1) (core7 : IntegCore 7)
    (s : SatState) (time : ℚ) (settings : PropSettings) : Except PropError SatState :=
  match s.cov with
  | StateCov.None =>
      (orbitprop.propagate core1 (colVec s.pv) s.time time settings).map fun res =>
        { time := time
          pv := fun i => res.state_end i 0
          cov := StateCov.None }
  | StateCov.PVCov cov =>
      (orbitprop.propagate core7 (augmentedInit s.pv) s.time time settings).map fun res =>
        { time := time
          pv := fun i => res.state_end i 0
          cov := StateCov.PVCov (phiOf res.state_end * cov * (phiOf res.state_end)ᵀ) }

/-- The method call `s.propagate(time, settings)` as a receiver-state
transformer.  The Rust method takes the receiver by shared reference
(`&self`), so the receiver after the call is the receiver before the call;
the pair holds (receiver after the call, call result). -/
def SatState.propagateCall (core1 : IntegCore 1) (core7 : IntegCore 7)
    (s : SatState) (time : ℚ) (settings : PropSettings) :
    SatState × Except PropError SatState :=
  (s, SatState.propagate core1 core7 s time settings)

/-- The 6×6 covariance built by `SatState::set_gcrf_pos_uncertainty`: a zero
matrix whose diagonal is overwritten with
`(sigma 0 ^ 2, sigma 1 ^ 2, sigma 2 ^ 2, 0, 0, 0)`. -/
def gcrfCovMatrix (sigma : Fin 3 → ℚ) : Matrix (Fin 6) (Fin 6) ℚ :=
  Matrix.diagonal ![sigma 0 * sigma 0, sigma 1 * sigma 1, sigma 2 * sigma 2, 0, 0, 0]

/-- `SatState::set_gcrf_pos_uncertainty` (satstate.rs lines 95–105), embedded
as a function from the receiver to the updated receiver. -/
def SatState.set_gcrf_pos_uncertainty (s : SatState) (sigma_cart : Fin 3 → ℚ) : SatState :=
  { s with cov := StateCov.PVCov (gcrfCovMatrix sigma_cart) }

/-- The 6×6 covariance built by `SatState::set_lvlh_pos_uncertainty`: a zero
matrix whose 3×3 block at (0,0) is overwritten with
`dcmᵀ * diagonal (sigma squared componentwise) * dcm`, where `dcm` is the
gcrf→lvlh rotation matrix. -/
def lvlhCovMatrix (dcm : Matrix (Fin 3) (Fin 3) ℚ) (sigma : Fin 3 → ℚ) :
    Matrix (Fin 6) (Fin 6) ℚ :=
  fun i j =>
    if hi : (i : ℕ) < 3 then
      if hj : (j : ℕ) < 3 then
        (dcmᵀ * Matrix.diagonal (fun k => sigma k * sigma k) * dcm)
          ⟨(i : ℕ), hi⟩ ⟨(j : ℕ), hj⟩
      else 0
    else 0

/-- `SatState::set_lvlh_pos_uncertainty` (satstate.rs lines 76–86), embedded
as a function from the receiver to the updated receiver.  The rotation matrix
`dcm` produced by `qgcrf2lvlh().to_rotation_matrix()` comes from the
coordinate-frame rotation utility, an external collaborator per spec §1, and
is taken as a parameter. -/
def SatState.set_lvlh_pos_uncertainty (dcm : Matrix (Fin 3) (Fin 3) ℚ)
    (s : SatState) (sigma_lvlh : Fin 3 → ℚ) : SatState :=
  { s with cov := StateCov.PVCov (lvlhCovMatrix dcm sigma_lvlh) }

/-- The transition-matrix view of the freshly built augmented state is the
identity matrix. -/
theorem phiOf_augmentedInit (pv : Fin 6 → ℚ) : phiOf (augmentedInit pv) = 1 := by
  funext i j
  simp only [phiOf, augmentedInit, Fin.val_succ, Matrix.one_apply]
  rcases eq_or_ne i j with rfl | hne
  · simp
  · have hne2 : (j : ℕ) + 1 ≠ (i : ℕ) + 1 := by
      intro hc
      exact hne (Fin.ext (by omega))
    simp [hne, hne2]

/-- A sandwich of a diagonal matrix between a matrix transpose and the matrix
is symmetric. -/
theorem sandwich_diagonal_transpose (R : Matrix (Fin 3) (Fin 3) ℚ) (d : Fin 3 → ℚ) :
    (Rᵀ * Matrix.diagonal d * R)ᵀ = Rᵀ * Matrix.diagonal d * R := by
  rw [Matrix.transpose_mul, Matrix.transpose_mul, Matrix.transpose_transpose,
    Matrix.diagonal_transpose, Matrix.mul_assoc]

/-- Claim C1: in the covariance branch, `SatState::propagate` integrates the
6×7 augmented state whose column 0 is the position/velocity vector and whose
columns 1–7 form the 6×6 identity matrix; the call result equals the engine
result with the transition matrix `phi` read back from columns 1–7 of the
final state and the returned covariance exactly `phi * P * phiᵀ` for the
input covariance `P`. -/
theorem satstate_propagate_covariance (core1 : IntegCore 1) (core7 : IntegCore 7)
    (tm t : ℚ) (pv : Fin 6 → ℚ) (P : Matrix (Fin 6) (Fin 6) ℚ) (st : PropSettings) :
    (∀ i : Fin 6, augmentedInit pv i 0 = pv i) ∧
    (∀ i j : Fin 6, augmentedInit pv i j.succ = (1 : Matrix (Fin 6) (Fin 6) ℚ) i j) ∧
    SatState.propagate core1 core7 { time := tm, pv := pv, cov := StateCov.PVCov P } t st =
      (orbitprop.propagate core7 (augmentedInit pv) tm t st).map (fun res =>
        { time := t
          pv := fun i => res.state_end i 0
          cov := StateCov.PVCov (phiOf res.state_end * P * (phiOf res.state_end)ᵀ) }) := by
  refine ⟨fun i => rfl, fun i j => ?_, rfl⟩
  exact congrFun (congrFun (phiOf_augmentedInit pv) i) j

/-- Claim C7: in the covariance-free branch, `SatState::propagate` hands the
engine only the plain single-column 6-component state (the 6×7 augmented
block never appears: the right side mentions only the 1-column core applied
to the plain state) and the returned covariance is again absent. -/
theorem satstate_propagate_cov_absent (core1 : IntegCore 1) (core7 : IntegCore 7)
    (tm t : ℚ) (pv : Fin 6 → ℚ) (st : PropSettings) :
    SatState.propagate core1 core7 { time := tm, pv := pv, cov := StateCov.None } t st =
      (orbitprop.propagate core1 (colVec pv) tm t st).map (fun res =>
        { time := t
          pv := fun i => res.state_end i 0
          cov := StateCov.None }) := rfl

/-- Claim C6: propagating any state to its own current time succeeds and
returns the state unchanged (position/velocity and covariance equal to the
input, exactly), and any zero-span engine call reports zero accepted and zero
rejected steps, in both the plain and the augmented shape. -/
theorem satstate_propagate_zero_span (core1 : IntegCore 1) (core7 : IntegCore 7)
    (s : SatState) (st : PropSettings)
    (y1 : Matrix (Fin 6) (Fin 1) ℚ) (y7 : Matrix (Fin 6) (Fin 7) ℚ) :
    SatState.propagate core1 core7 s s.time st = Except.ok s ∧
    (orbitprop.propagate core1 y1 s.time s.time st).map
        (fun r => (r.accepted_steps, r.rejected_steps)) = Except.ok (0, 0) ∧
    (orbitprop.propagate core7 y7 s.time s.time st).map
        (fun r => (r.accepted_steps, r.rejected_steps)) = Except.ok (0, 0) := by
  refine ⟨?_, by simp [orbitprop.propagate, Except.map], by simp [orbitprop.propagate, Except.map]⟩
  obtain ⟨tm, pv, cov⟩ := s
  cases cov with
  | None =>
      simp [SatState.propagate, orbitprop.propagate, colVec, Except.map]
  | PVCov P =>
      simp [SatState.propagate, orbitprop.propagate, augmentedInit, phiOf_augmentedInit,
            Except.map, Matrix.transpose_one, Matrix.one_mul, Matrix.mul_one]

/-- Claim C10: the method call leaves the receiver unchanged (the receiver
after the call is the receiver before the call, reflecting the shared
`&self` borrow), and whenever the call succeeds the time field of the
returned state is the requested target time, in both covariance branches. -/
theorem satstate_propagate_receiver (core1 : IntegCore 1) (core7 : IntegCore 7)
    (s : SatState) (t : ℚ) (st : PropSettings) :
    (SatState.propagateCall core1 core7 s t st).1 = s ∧
    Except.map SatState.time (SatState.propagateCall core1 core7 s t st).2 =
      Except.map (fun _ => t) (SatState.propagateCall core1 core7 s t st).2 := by
  refine ⟨rfl, ?_⟩
  obtain ⟨tm, pv, cov⟩ := s
  cases cov with
  | None =>
      simp only [SatState.propagateCall, SatState.propagate]
      cases orbitprop.propagate core1 (colVec pv) tm t st <;> rfl
  | PVCov P =>
      simp only [SatState.propagateCall, SatState.propagate]
      cases orbitprop.propagate core7 (augmentedInit pv) tm t st <;> rfl

/-- Claim C3: for every symmetric input covariance `P` and every successful
propagation in the covariance branch, the returned covariance is exactly
`Phi * P * Phiᵀ` for the extracted transition matrix `Phi` — no
symmetrization correction is applied to it — and that matrix equals its own
transpose (exactly, over the rationals). -/
theorem satstate_propagate_cov_symmetric (core1 : IntegCore 1) (core7 : IntegCore 7)
    (st : PropSettings) (tm t : ℚ) (pv : Fin 6 → ℚ)
    (P : Matrix (Fin 6) (Fin 6) ℚ) (r : SatState)
    (hP : Pᵀ = P)
    (h : SatState.propagate core1 core7 { time := tm, pv := pv, cov := StateCov.PVCov P } t st
          = Except.ok r) :
    ∃ Phi : Matrix (Fin 6) (Fin 6) ℚ,
      r.cov = StateCov.PVCov (Phi * P * Phiᵀ) ∧
      (Phi * P * Phiᵀ)ᵀ = Phi * P * Phiᵀ := by
  have hsym : ∀ Phi : Matrix (Fin 6) (Fin 6) ℚ, (Phi * P * Phiᵀ)ᵀ = Phi * P * Phiᵀ := by
    intro Phi
    rw [Matrix.transpose_mul, Matrix.transpose_mul, Matrix.transpose_transpose, hP,
      Matrix.mul_assoc]
  unfold SatState.propagate at h
  cases hres : orbitprop.propagate core7 (augmentedInit pv) tm t st with
  | error e =>
      rw [hres] at h
      simp [Except.map] at h
  | ok res =>
      rw [hres] at h
      simp only [Except.map] at h
      have hr := Except.ok.inj h
      refine ⟨phiOf res.state_end, ?_, hsym _⟩
      rw [← hr]

/-- Claim C9: after `set_gcrf_pos_uncertainty(sigma)` the covariance is a
`PVCov` whose first three diagonal entries are the squared sigmas and whose
every other entry is zero; after `set_lvlh_pos_uncertainty(sigma)` the
covariance is a `PVCov` whose upper-left 3×3 block is
`dcmᵀ * diagonal (sigma squared) * dcm` and whose entries in rows or columns
3–5 are all zero; both stored matrices are symmetric. -/
theorem satstate_pos_uncertainty (s : SatState) (σg σl : Fin 3 → ℚ)
    (dcm : Matrix (Fin 3) (Fin 3) ℚ) :
    (SatState.set_gcrf_pos_uncertainty s σg).cov = StateCov.PVCov (gcrfCovMatrix σg) ∧
    (∀ k : Fin 3, gcrfCovMatrix σg (Fin.castLE (by norm_num) k) (Fin.castLE (by norm_num) k)
        = σg k * σg k) ∧
    (∀ i j : Fin 6, ¬(i = j ∧ (i : ℕ) < 3) → gcrfCovMatrix σg i j = 0) ∧
    (gcrfCovMatrix σg)ᵀ = gcrfCovMatrix σg ∧
    (SatState.set_lvlh_pos_uncertainty dcm s σl).cov = StateCov.PVCov (lvlhCovMatrix dcm σl) ∧
    (∀ k l : Fin 3, lvlhCovMatrix dcm σl (Fin.castLE (by norm_num) k) (Fin.castLE (by norm_num) l)
        = (dcmᵀ * Matrix.diagonal (fun m => σl m * σl m) * dcm) k l) ∧
    (∀ i j : Fin 6, 3 ≤ (i : ℕ) ∨ 3 ≤ (j : ℕ) → lvlhCovMatrix dcm σl i j = 0) ∧
    (lvlhCovMatrix dcm σl)ᵀ = lvlhCovMatrix dcm σl := by
  refine ⟨rfl, ?_, ?_, ?_, rfl, ?_, ?_, ?_⟩
  · intro k
    fin_cases k <;>
      simp [gcrfCovMatrix, Matrix.diagonal_apply_eq, Fin.castLE, vecCons_val_five,
            Matrix.vecHead, Matrix.vecTail, Function.comp]
  · intro i j h
    rcases eq_or_ne i j with rfl | hne
    · have h3 : ¬ (i : ℕ) < 3 := fun hc => h ⟨rfl, hc⟩
      fin_cases i <;>
        simp_all [gcrfCovMatrix, Matrix.diagonal_apply_eq, vecCons_val_five,
                  Matrix.vecHead, Matrix.vecTail, Function.comp]
    · simp [gcrfCovMatrix, Matrix.diagonal_apply_ne _ hne]
  · simp [gcrfCovMatrix, Matrix.diagonal_transpose]
  · intro k l
    simp [lvlhCovMatrix, Fin.coe_castLE, Fin.is_lt, Fin.eta]
  · intro i j h
    simp only [lvlhCovMatrix]
    by_cases hi : (i : ℕ) < 3
    · rw [dif_pos hi, dif_neg (by omega)]
    · rw [dif_neg hi]
  · funext i j
    show lvlhCovMatrix dcm σl j i = lvlhCovMatrix dcm σl i j
    simp only [lvlhCovMatrix]
    by_cases hi : (i : ℕ) < 3 <;> by_cases hj : (j : ℕ) < 3
    · simp only [dif_pos hi, dif_pos hj]
      exact congrFun (congrFun (sandwich_diagonal_transpose dcm
        (fun m => σl m * σl m)) ⟨(i : ℕ), hi⟩) ⟨(j : ℕ), hj⟩
    · simp only [dif_pos hi, dif_neg hj]
    · simp only [dif_pos hj, dif_neg hi]
    · simp only [dif_neg hi, dif_neg hj]

/-- A receiver state used to instantiate witnesses. -/
def sat0 : SatState := { time := 0, pv := fun _ => 0, cov := StateCov.None }

/-- Claim C9 witness: the zero-entry parts of the uncertainty theorem applied
at concrete indices, with their hypotheses discharged there. -/
theorem satstate_pos_uncertainty_witness :
    gcrfCovMatrix (fun _ => 1) 0 4 = 0 ∧
    lvlhCovMatrix 1 (fun _ => 1) 5 5 = 0 :=
  ⟨(satstate_pos_uncertainty sat0 (fun _ => 1) (fun _ => 1) 1).2.2.1 0 4 (by decide),
   (satstate_pos_uncertainty sat0 (fun _ => 1) (fun _ => 1) 1).2.2.2.2.2.2.1 5 5 (by decide)⟩

/-- An integration core for a single-column state that always fails; in
zero-span witnesses the core is never consulted. -/
def dummyCore1 : IntegCore 1 := fun _ _ _ _ => Except.error PropError.maxStepsExceeded

/-- An integration core for an augmented state that always fails; in
zero-span witnesses the core is never consulted. -/
def dummyCore7 : IntegCore 7 := fun _ _ _ _ => Except.error PropError.maxStepsExceeded

/-- A concrete settings value for witnesses. -/
def settings0 : PropSettings :=
  { abs_error := 0, rel_error := 0, initial_step := 0, min_step := 0,
    max_step := 0, max_steps := 0, enable_dense_output := false }

/-- A concrete position/velocity vector for witnesses. -/
def pv0 : Fin 6 → ℚ := fun _ => 0

/-- The state returned by the zero-span covariance propagation used in the
symmetry witness. -/
def covResult0 : SatState :=
  { time := 0
    pv := fun i => augmentedInit pv0 i 0
    cov := StateCov.PVCov
      (phiOf (augmentedInit pv0) * 1 * (phiOf (augmentedInit pv0))ᵀ) }

/-- Claim C3 witness: the symmetry theorem applied to the identity input
covariance and a zero-span propagation, with both hypotheses discharged. -/
theorem satstate_propagate_cov_symmetric_witness :
    ∃ Phi : Matrix (Fin 6) (Fin 6) ℚ,
      covResult0.cov = StateCov.PVCov (Phi * (1 : Matrix (Fin 6) (Fin 6) ℚ) * Phiᵀ) ∧
      (Phi * (1 : Matrix (Fin 6) (Fin 6) ℚ) * Phiᵀ)ᵀ = Phi * 1 * Phiᵀ :=
  satstate_propagate_cov_symmetric dummyCore1 dummyCore7 settings0 0 0 pv0 1 covResult0
    Matrix.transpose_one rfl

/-! ## PyPropResult interpolation (src/pybindings/pypropresult.rs) -/

/-- The interpolation error kinds: the recoverable out-of-range error of spec
§4.4/§7, and the error for a result without retained dense output (spec §6
declares interpolation valid only on a result produced with dense output
enabled).  The Rust binding converts the error into a Python `ValueError`
value; the embedding keeps the error kind itself. -/
inductive InterpError
  | outOfRange
  | noDenseOutput

/-- Modelled from the spec: `PropagationResult::interp` (spec §4.4 and §6):
for a result retaining dense output, evaluation succeeds for any time within
`[time_start, time_end]` and fails with the out-of-range error outside that
span; without retained dense output it fails.  The retained per-step data and
the local interpolating polynomials are abstracted as the evaluation function
stored in `odesol`. -/
def PropagationResult.interp (r : PropagationResult n) (t : ℚ) :
    Except InterpError (Matrix (Fin 6) (Fin n) ℚ) :=
  match r.odesol with
  | Option.none => Except.error InterpError.noDenseOutput
  | Option.some sol =>
      if r.time_start ≤ t ∧ t ≤ r.time_end then Except.ok (sol t)
      else Except.error InterpError.outOfRange

/-- The `PyPropResultType` alternative of pypropresult.rs: a plain 1-column
result or an augmented 7-column result. -/
inductive PyPropResultType
  | R1 (r : PropagationResult 1)
  | R7 (r : PropagationResult 7)

/-- The Python value produced by `PyPropResult::interp`: a 1-d array of the 6
state components, or (with `output_phi` set) that array paired with the raw
36-entry column-major slice holding the transition matrix. -/
inductive PyInterpValue
  | vec1d (v : Fin 6 → ℚ)
  | withPhi (v : Fin 6 → ℚ) (phiSlice : Fin 36 → ℚ)

/-- `PyPropResult::interp` (pypropresult.rs lines 188–216): dispatches on the
result shape, forwards the time to `PropagationResult::interp`, and on
success returns, for the 1-column shape, the 6-vector; for the 7-column
shape with `output_phi == false`, entries 0–6 of the column-major slice of
the interpolated 6×7 block (its column 0); with `output_phi` set, that
together with entries 6–42 of the slice (columns 1–7).  Errors are returned
as recoverable error values. -/
def PyPropResult.interp (inner : PyPropResultType) (time : ℚ) (output_phi : Bool) :
    Except InterpError PyInterpValue :=
  match inner with
  | PyPropResultType.R1 r =>
      (r.interp time).map fun res => PyInterpValue.vec1d (fun i => res i 0)
  | PyPropResultType.R7 r =>
      (r.interp time).map fun res =>
        if output_phi = false then
          PyInterpValue.vec1d (fun i => res i 0)
        else
          PyInterpValue.withPhi (fun i => res i 0)
            (fun k => res ⟨(k : ℕ) % 6, Nat.mod_lt _ (by norm_num)⟩
                          ⟨(k : ℕ) / 6 + 1, by have h36 := k.isLt; omega⟩)

/-- Claim C8: for results retaining dense output, `interp` succeeds exactly
for times within `[time_start, time_end]` and fails with the recoverable
out-of-range error value for every time outside that span, in both shapes;
and in the augmented 7-column shape a successful interpolation with
`output_phi = false` yields exactly the first 6 components (column 0) of the
interpolated state block. -/
theorem pypropresult_interp_spec (r1 : PropagationResult 1) (r7 : PropagationResult 7)
    (sol1 : ℚ → Matrix (Fin 6) (Fin 1) ℚ) (sol7 : ℚ → Matrix (Fin 6) (Fin 7) ℚ)
    (t : ℚ) (b : Bool)
    (h1 : r1.odesol = Option.some sol1) (h7 : r7.odesol = Option.some sol7) :
    ((∃ out, PyPropResult.interp (PyPropResultType.R1 r1) t b = Except.ok out) ↔
        (r1.time_start ≤ t ∧ t ≤ r1.time_end)) ∧
    (¬(r1.time_start ≤ t ∧ t ≤ r1.time_end) →
        PyPropResult.interp (PyPropResultType.R1 r1) t b =
          Except.error InterpError.outOfRange) ∧
    ((∃ out, PyPropResult.interp (PyPropResultType.R7 r7) t b = Except.ok out) ↔
        (r7.time_start ≤ t ∧ t ≤ r7.time_end)) ∧
    (¬(r7.time_start ≤ t ∧ t ≤ r7.time_end) →
        PyPropResult.interp (PyPropResultType.R7 r7) t b =
          Except.error InterpError.outOfRange) ∧
    (r7.time_start ≤ t ∧ t ≤ r7.time_end →
        PyPropResult.interp (PyPropResultType.R7 r7) t false =
          Except.ok (PyInterpValue.vec1d (fun i => sol7 t i 0))) := by
  by_cases hc1 : r1.time_start ≤ t ∧ t ≤ r1.time_end <;>
    by_cases hc7 : r7.time_start ≤ t ∧ t ≤ r7.time_end <;>
      simp [PyPropResult.interp, PropagationResult.interp, h1, h7, hc1, hc7, Except.map]

/-- A concrete dense-output evaluator for the 1-column witness result. -/
def sol1c : ℚ → Matrix (Fin 6) (Fin 1) ℚ := fun _ _ _ => 0

/-- A concrete dense-output evaluator for the 7-column witness result. -/
def sol7c : ℚ → Matrix (Fin 6) (Fin 7) ℚ := fun _ _ _ => 0

/-- A concrete retained 1-column propagation result covering the span
from 0 to 1. -/
def res1c : PropagationResult 1 :=
  { time_start := 0, time_end := 1, state_end := fun _ _ => 0, num_eval := 0,
    accepted_steps := 0, rejected_steps := 0, odesol := Option.some sol1c }

/-- A concrete retained 7-column propagation result covering the span
from 0 to 1. -/
def res7c : PropagationResult 7 :=
  { time_start := 0, time_end := 1, state_end := fun _ _ => 0, num_eval := 0,
    accepted_steps := 0, rejected_steps := 0, odesol := Option.some sol7c }

/-- Claim C8 witness: the interpolation theorem applied to concrete retained
results, evaluated inside the span at time 1/2 and outside it at time 2,
with every hypothesis discharged. -/
theorem pypropresult_interp_spec_witness :
    PyPropResult.interp (PyPropResultType.R7 res7c) 2 false =
      Except.error InterpError.outOfRange ∧
    PyPropResult.interp (PyPropResultType.R7 res7c) (1/2) false =
      Except.ok (PyInterpValue.vec1d (fun i => sol7c (1/2) i 0)) :=
  ⟨(pypropresult_interp_spec res1c res7c sol1c sol7c 2 false rfl rfl).2.2.2.1
      (by norm_num [res7c]),
   (pypropresult_interp_spec res1c res7c sol1c sol7c (1/2) false rfl rfl).2.2.2.2
      (by norm_num [res7c])⟩
